import Mathlib

/-!
Verification of the `ADICVTransformer` from
`sktime/transformations/series/adi_cv.py`.

The transformer is a pure function from a univariate series to a one-row
record holding up to three features: the Average Demand Interval (ADI),
the squared coefficient of variation (CV2) over the non-zero values, and
a categorical class label in {smooth, erratic, intermittent, lumpy}.

The embedding below translates the Python code directly:

* series values and thresholds are modelled as exact rationals;
* the places where NumPy float semantics genuinely matter (division of a
  NumPy integer by zero yields `inf`/`nan` with a warning instead of an
  exception, and comparisons with `nan` are false) are modelled by the
  explicit `PyNum` type;
* Python exceptions (`ZeroDivisionError` on integer `/ 0`, `IndexError`
  on indexing an empty array, `UnboundLocalError` on reading a variable
  no branch assigned, pandas `KeyError` on selecting a missing column)
  become `Except` errors;
* the constructor's feature validation (`raise ValueError`) becomes
  `mkConfig` returning `Except InitError Config`.
-/

namespace AdiCv

/-- Result of a NumPy floating-point computation: either an exact rational
value, positive or negative infinity, or `nan`. -/
inductive PyNum where
  | q (v : ℚ)
  | inf
  | ninf
  | nan
deriving DecidableEq

/-- Predicate picking out the `PyNum`s that are finite real (rational)
values, as opposed to the float specials `inf`, `-inf` and `nan`. -/
def PyNum.isFiniteVal : PyNum → Bool
  | .q _ => true
  | _ => false

/-- Division of two integers under NumPy float semantics: division by zero
yields `nan` for `0 / 0` and a signed infinity otherwise (a `RuntimeWarning`,
not an exception). -/
def npDivInt (a b : ℤ) : PyNum :=
  if b = 0 then
    if a = 0 then .nan else if 0 < a then .inf else .ninf
  else
    .q ((a : ℚ) / (b : ℚ))

/-- Float comparison `x <= t` against a finite threshold: false when `x` is
`nan` or `+inf`, true when `x` is `-inf`. -/
def ple (x : PyNum) (t : ℚ) : Bool :=
  match x with
  | .q v => decide (v ≤ t)
  | .inf => false
  | .ninf => true
  | .nan => false

/-- Population mean, `np.mean` of a list of rationals. Only used on
non-empty lists; the empty case is routed to `nan` by `cv2Of`. -/
def popMean (vs : List ℚ) : ℚ :=
  vs.sum / (vs.length : ℚ)

/-- Population variance, i.e. the square of `np.std` (which uses `ddof=0`). -/
def popVar (vs : List ℚ) : ℚ :=
  ((vs.map (fun x => (x - popMean vs) ^ 2)).sum) / (vs.length : ℚ)

/-- Embedding of `cv2_value = (np.std(vals) / np.mean(vals)) ** 2`, lines 212-214.
With `σ = sqrt(popVar)` the square equals `popVar / mean^2` exactly, so the
rational model avoids the square root.  The float corner cases are kept:
an empty list gives `nan` (mean and std of an empty slice are `nan`), a zero
mean gives `(σ/0)^2 = inf` when `σ > 0` and `nan` when `σ = 0`. -/
def cv2Of (vs : List ℚ) : PyNum :=
  if vs.length = 0 then .nan
  else if popMean vs = 0 then
    (if popVar vs = 0 then .nan else .inf)
  else .q (popVar vs / (popMean vs) ^ 2)

/-- The class assignment of lines 216-229, translated branch for branch.
The Python `if/elif` chain has no final `else`, so a fall-through would
leave `class_type` unbound; that is modelled by the `none` result. -/
def classTypeOf (adi cv2 : PyNum) (adiThr cvThr : ℚ) : Option String :=
  let adi_low := ple adi adiThr
  let cv2_low := ple cv2 cvThr
  let adi_high := !adi_low
  let cv2_high := !cv2_low
  if adi_low && cv2_low then some "smooth"
  else if adi_low && cv2_high then some "erratic"
  else if adi_high && cv2_low then some "intermittent"
  else if adi_high && cv2_high then some "lumpy"
  else none

/-- A cell of the returned one-row DataFrame: a numeric feature or the
class label. -/
inductive FeatureValue where
  | num (v : PyNum)
  | str (s : String)
deriving DecidableEq

/-- The constructor raises `ValueError` on an invalid features list. -/
inductive InitError where
  | valueError
deriving DecidableEq

/-- Exceptions `_transform` can raise: Python `ZeroDivisionError` on integer
division by zero, `IndexError` on `X_non_zero_indices[0]` of an empty array,
`UnboundLocalError` on reading `adi_numerator`/`class_type` when no branch
assigned them, and pandas `KeyError` on `df.loc` column selection. -/
inductive TransformError where
  | zeroDivisionError
  | indexError
  | unboundLocalError
  | keyError
deriving DecidableEq

/-- The state of a constructed `ADICVTransformer`: the four stored
parameters plus `features_internal` (the features list with `None`
replaced by the default `["adi", "cv2", "class"]`). -/
structure Config where
  features : Option (List String)
  adi_threshold : ℚ
  cv_threshold : ℚ
  adi_trim_handling : String
  featuresInternal : List String
deriving DecidableEq

/-- The feature names accepted by the constructor's validation. -/
def validFeatures : List String := ["adi", "cv2", "class"]

/-- Embedding of `ADICVTransformer.__init__` (lines 110-161): store the parameters, then
if `features` is not `None` check every entry against `validFeatures` and
raise `ValueError` otherwise; if it is `None`, set `features_internal` to the
default list.  Note that `adi_trim_handling` is NOT validated here. -/
def mkConfig : Option (List String) → ℚ → ℚ → String → Except InitError Config
  | some fs, adi_threshold, cv_threshold, adi_trim_handling =>
      if fs.all (fun f => validFeatures.contains f) then
        .ok ⟨some fs, adi_threshold, cv_threshold, adi_trim_handling, fs⟩
      else
        .error .valueError
  | none, adi_threshold, cv_threshold, adi_trim_handling =>
      .ok ⟨none, adi_threshold, cv_threshold, adi_trim_handling, validFeatures⟩

/-- Embedding of `X.to_numpy().nonzero()[0]` (line 187): the ascending list of
indices at which the series is non-zero. -/
def nonzeroIndices (xs : List ℚ) : List ℕ :=
  (List.range xs.length).filter (fun i => xs.getD i 0 ≠ 0)

/-- Embedding of `X.iloc[X_non_zero_indices].values` (line 188): the non-zero
values of the series, in order. -/
def nonzeroValues (xs : List ℚ) : List ℚ :=
  (nonzeroIndices xs).map (fun i => xs.getD i 0)

/-- Lines 190-209: choice of ADI numerator and denominator by
`adi_trim_handling`, followed by the division.

* `"trim"`: `X_non_zero_indices[0]` raises `IndexError` on an all-zero
  series; the numerator and denominator are NumPy integers, so the division
  goes through NumPy float semantics (`0/0 = nan`, no exception).
* `"pool"` and `"ignore"`: numerator `len(X)` and denominator are plain
  Python ints, so `/ 0` raises `ZeroDivisionError`.  Under `"ignore"` an
  all-zero series has denominator `0 - 1 = -1`, which does NOT raise.
* any other string: neither branch assigned `adi_numerator`, so line 209
  raises `UnboundLocalError`. -/
def adiOf (handling : String) (T : ℕ) (idx : List ℕ) : Except TransformError PyNum :=
  if handling = "trim" then
    match idx with
    | [] => .error .indexError
    | i :: rest =>
        .ok (npDivInt (((i :: rest).getLastD 0 : ℤ) - (i : ℤ))
          (((i :: rest).length : ℤ) - 1))
  else if handling = "pool" then
    if idx.length = 0 then .error .zeroDivisionError
    else .ok (.q ((T : ℚ) / (idx.length : ℚ)))
  else if handling = "ignore" then
    if (idx.length : ℤ) - 1 = 0 then .error .zeroDivisionError
    else .ok (.q ((T : ℚ) / ((idx.length : ℚ) - 1)))
  else .error .unboundLocalError

/-- Lines 231-241: build `return_dict` by inserting, in the fixed order
`adi`, `cv2`, `class`, each feature present in `features_internal`.  Reading
`class_type` when the classification chain fell through every branch raises
`UnboundLocalError`; that read happens only when `"class"` is requested. -/
def buildReturnDict (featsInternal : List String) (adi cv2 : PyNum)
    (ct : Option String) : Except TransformError (List (String × FeatureValue)) :=
  let d1 := if featsInternal.contains "adi" then [("adi", FeatureValue.num adi)] else []
  let d2 := if featsInternal.contains "cv2" then [("cv2", FeatureValue.num cv2)] else []
  if featsInternal.contains "class" then
    match ct with
    | some s => .ok (d1 ++ d2 ++ [("class", FeatureValue.str s)])
    | none => .error .unboundLocalError
  else .ok (d1 ++ d2)

/-- Line 246, `df = df.loc[:, self.features_internal]`: select the columns
named in `features_internal`, in that order; a missing column is a pandas
`KeyError`. -/
def reindex (cols : List String) (d : List (String × FeatureValue)) :
    Except TransformError (List (String × FeatureValue)) :=
  match cols with
  | [] => .ok []
  | f :: rest =>
      match d.lookup f with
      | some v =>
          match reindex rest d with
          | .ok out => .ok ((f, v) :: out)
          | .error e => .error e
      | none => .error .keyError

/-- Embedding of `ADICVTransformer._transform` (lines 163-248) on a series of rationals:
find the non-zero indices and values, compute ADI per the trim-handling
policy, compute CV2 over the non-zero values, classify, and assemble the
one-row record in `features_internal` order. -/
def transform (c : Config) (xs : List ℚ) :
    Except TransformError (List (String × FeatureValue)) :=
  match adiOf c.adi_trim_handling xs.length (nonzeroIndices xs) with
  | .error e => .error e
  | .ok adi =>
      match buildReturnDict c.featuresInternal adi (cv2Of (nonzeroValues xs))
          (classTypeOf adi (cv2Of (nonzeroValues xs)) c.adi_threshold
            c.cv_threshold) with
      | .error e => .error e
      | .ok d => reindex c.featuresInternal d

/-- A call of `_transform` through the estimator instance: the method reads
`self` but never writes to it, so the state-passing model returns the
configuration unchanged alongside the result. -/
def transformCall (c : Config) (xs : List ℚ) :
    (Except TransformError (List (String × FeatureValue))) × Config :=
  (transform c xs, c)

/-- Default thresholds from the constructor signature:
`adi_threshold = 1.32`, `cv_threshold = 0.49`. -/
def defaultAdiThreshold : ℚ := 33 / 25

/-- Default CV2 threshold `0.49`. -/
def defaultCvThreshold : ℚ := 49 / 100

/-- The transformer built with all-default parameters
(`features=None`, thresholds `1.32` and `0.49`, handling `"pool"`). -/
def defaultPoolConfig : Config :=
  ⟨none, defaultAdiThreshold, defaultCvThreshold, "pool", validFeatures⟩

/-- The all-default transformer with `adi_trim_handling="ignore"`. -/
def defaultIgnoreConfig : Config :=
  ⟨none, defaultAdiThreshold, defaultCvThreshold, "ignore", validFeatures⟩

/-- The all-default transformer with `adi_trim_handling="trim"`. -/
def defaultTrimConfig : Config :=
  ⟨none, defaultAdiThreshold, defaultCvThreshold, "trim", validFeatures⟩

/-- Series of the spec's concrete scenario A. -/
def scenarioASeries : List ℚ := [5, 0, 0, 3, 0, 4, 0, 0, 0, 2]

/-! Helper lemmas about the embedding. -/

theorem adiOf_pool (T : ℕ) (idx : List ℕ) :
    adiOf "pool" T idx =
      if idx.length = 0 then .error .zeroDivisionError
      else .ok (.q ((T : ℚ) / (idx.length : ℚ))) := by
  unfold adiOf
  rw [if_neg (by decide), if_pos rfl]

theorem adiOf_ignore (T : ℕ) (idx : List ℕ) :
    adiOf "ignore" T idx =
      if (idx.length : ℤ) - 1 = 0 then .error .zeroDivisionError
      else .ok (.q ((T : ℚ) / ((idx.length : ℚ) - 1))) := by
  unfold adiOf
  rw [if_neg (by decide), if_neg (by decide), if_pos rfl]

theorem adiOf_trim_nil (T : ℕ) : adiOf "trim" T [] = .error .indexError := rfl

theorem adiOf_trim_cons (T : ℕ) (i : ℕ) (rest : List ℕ) :
    adiOf "trim" T (i :: rest) =
      .ok (npDivInt (((i :: rest).getLastD 0 : ℤ) - (i : ℤ))
        (((i :: rest).length : ℤ) - 1)) := by
  unfold adiOf
  rw [if_pos rfl]

theorem transform_error_of_adi (c : Config) (xs : List ℚ) (e : TransformError)
    (h : adiOf c.adi_trim_handling xs.length (nonzeroIndices xs) = .error e) :
    transform c xs = .error e := by
  simp only [transform, h]

/-- When ADI computation succeeds, the features are the default three and the
classification chain produced a label, the output is the full three-column
record. -/
theorem transform_ok_of_adi (c : Config) (xs : List ℚ) (adi : PyNum) (s : String)
    (hadi : adiOf c.adi_trim_handling xs.length (nonzeroIndices xs) = .ok adi)
    (hfi : c.featuresInternal = validFeatures)
    (hct : classTypeOf adi (cv2Of (nonzeroValues xs)) c.adi_threshold
      c.cv_threshold = some s) :
    transform c xs =
      .ok [("adi", .num adi), ("cv2", .num (cv2Of (nonzeroValues xs))),
           ("class", .str s)] := by
  simp only [transform, hadi, hfi, hct]
  rfl

theorem reindex_ok_fst (cols : List String) (d : List (String × FeatureValue)) :
    ∀ out, reindex cols d = .ok out → out.map Prod.fst = cols := by
  induction cols with
  | nil =>
      intro out h
      unfold reindex at h
      cases h
      rfl
  | cons f rest ih =>
      intro out h
      unfold reindex at h
      cases hl : d.lookup f with
      | none => rw [hl] at h; cases h
      | some v =>
          rw [hl] at h
          cases hr : reindex rest d with
          | error e => rw [hr] at h; cases h
          | ok out2 =>
              rw [hr] at h
              cases h
              simpa using ih out2 hr

/-- A successful transform result always came out of the final column
selection over `features_internal`. -/
theorem transform_ok_elim (c : Config) (xs : List ℚ)
    (out : List (String × FeatureValue)) (h : transform c xs = .ok out) :
    ∃ d, reindex c.featuresInternal d = .ok out := by
  cases hadi : adiOf c.adi_trim_handling xs.length (nonzeroIndices xs) with
  | error e =>
      rw [transform_error_of_adi c xs e hadi] at h
      cases h
  | ok adi =>
      simp only [transform, hadi] at h
      cases hd : buildReturnDict c.featuresInternal adi (cv2Of (nonzeroValues xs))
          (classTypeOf adi (cv2Of (nonzeroValues xs)) c.adi_threshold
            c.cv_threshold) with
      | error e => rw [hd] at h; cases h
      | ok d => rw [hd] at h; exact ⟨d, h⟩

theorem mkConfig_some_ok (fs : List String) (a c : ℚ) (hd : String) (cfg : Config)
    (h : mkConfig (some fs) a c hd = .ok cfg) :
    cfg = ⟨some fs, a, c, hd, fs⟩ := by
  by_cases hv : fs.all (fun f => validFeatures.contains f) = true
  · simp only [mkConfig, if_pos hv] at h
    cases h
    rfl
  · simp only [mkConfig, if_neg hv] at h
    cases h

theorem mkConfig_none_ok (a c : ℚ) (hd : String) (cfg : Config)
    (h : mkConfig none a c hd = .ok cfg) :
    cfg = ⟨none, a, c, hd, validFeatures⟩ := by
  simp only [mkConfig] at h
  cases h
  rfl

/-! Theorems settling the claims. -/

/-- Claim C1: the classify step assigns exactly one of the four labels
according to the 2x2 decision table with `adi_low = ADI <= adi_threshold` and
`cv2_low = CV2 <= cv2_threshold`; boundary values classify to the low side
(the comparisons are non-strict), and the four quadrants cover all rational
`(ADI, CV2)` pairs with no gaps or overlaps. -/
theorem classify_quadrant_table (a c t u : ℚ) :
    (classTypeOf (.q a) (.q c) t u).isSome = true ∧
    (a ≤ t → c ≤ u → classTypeOf (.q a) (.q c) t u = some "smooth") ∧
    (a ≤ t → ¬c ≤ u → classTypeOf (.q a) (.q c) t u = some "erratic") ∧
    (¬a ≤ t → c ≤ u → classTypeOf (.q a) (.q c) t u = some "intermittent") ∧
    (¬a ≤ t → ¬c ≤ u → classTypeOf (.q a) (.q c) t u = some "lumpy") := by
  by_cases h1 : a ≤ t <;> by_cases h2 : c ≤ u <;>
    simp [classTypeOf, ple, h1, h2]

/-- Witness for C1 at the boundary point `ADI = adi_threshold`,
`CV2 = cv2_threshold` with the default thresholds: both comparisons are
non-strict, so the label is `smooth`. -/
theorem classify_quadrant_table_witness :
    classTypeOf (.q (33/25)) (.q (49/100)) (33/25) (49/100) = some "smooth" :=
  (classify_quadrant_table (33/25) (49/100) (33/25) (49/100)).2.1
    (by norm_num) (by norm_num)

/-- Claim C2, counterexample: on the series `[5,0,0,3,0,4,0,0,0,2]` with
pool handling and default thresholds the code computes ADI = 5/2 and class
`intermittent` as claimed, but CV2 = 5/49 ≈ 0.1020, not ≈ 0.2041: the
claimed value `(sqrt(2.5)/3.5)^2 = 10/49` is off by 5/49 > 1/10, far beyond
rounding (the population variance of `[5,3,4,2]` is 5/4, not 5/2). -/
theorem scenarioA_cv2_counterexample :
    transform defaultPoolConfig scenarioASeries =
      .ok [("adi", .num (.q (5/2))), ("cv2", .num (.q (5/49))),
           ("class", .str "intermittent")] ∧
    ¬((5 : ℚ)/49 - 10/49 < 1/10 ∧ (10 : ℚ)/49 - 5/49 < 1/10) := by
  exact ⟨by with_unfolding_all rfl, by norm_num⟩

/-- Claim C2 as amended: on `[5,0,0,3,0,4,0,0,0,2]` with pool handling and
default thresholds the transform returns ADI = 5/2 = 2.5,
CV2 = 5/49 ≈ 0.1020 (the exact value of `(sqrt(1.25)/3.5)^2`), and class
`intermittent`. -/
theorem scenarioA_result :
    transform defaultPoolConfig scenarioASeries =
      .ok [("adi", .num (.q (5/2))), ("cv2", .num (.q (5/49))),
           ("class", .str "intermittent")] := by
  with_unfolding_all rfl

/-- Claim C7: constructing with a features list containing any entry outside
`{"adi", "cv2", "class"}` fails at construction time with the constructor's
validation error. -/
theorem invalid_features_error_at_construction (fs : List String) (a c : ℚ)
    (hd : String) (f : String) (hf : f ∈ fs) (hbad : f ∉ validFeatures) :
    mkConfig (some fs) a c hd = .error .valueError := by
  simp only [mkConfig]
  rw [if_neg]
  intro hall
  exact hbad (by simpa using List.all_eq_true.mp hall f hf)

/-- Witness for C7: `features = ["adi", "bogus"]` is rejected. -/
theorem invalid_features_error_at_construction_witness :
    mkConfig (some ["adi", "bogus"]) defaultAdiThreshold defaultCvThreshold
      "pool" = .error .valueError :=
  invalid_features_error_at_construction ["adi", "bogus"] defaultAdiThreshold
    defaultCvThreshold "pool" "bogus" (by simp) (by simp [validFeatures])

/-- Claim C3: for a series of length `T` with `N` non-zero observations
(`N` large enough that the accessed indices exist and the denominator is
non-zero: `N ≥ 1` for pool, `N ≥ 2` for trim and ignore), the computed ADI
equals `T/N` under pool, `(last_nonzero_index - first_nonzero_index)/(N-1)`
under trim, and `T/(N-1)` under ignore. -/
theorem adi_formula_by_handling (xs : List ℚ) :
    (1 ≤ (nonzeroIndices xs).length →
      adiOf "pool" xs.length (nonzeroIndices xs) =
        .ok (.q ((xs.length : ℚ) / ((nonzeroIndices xs).length : ℚ)))) ∧
    (2 ≤ (nonzeroIndices xs).length →
      adiOf "trim" xs.length (nonzeroIndices xs) =
        .ok (.q ((((nonzeroIndices xs).getLastD 0 : ℚ) -
            ((nonzeroIndices xs).headD 0 : ℚ)) /
          (((nonzeroIndices xs).length : ℚ) - 1)))) ∧
    (2 ≤ (nonzeroIndices xs).length →
      adiOf "ignore" xs.length (nonzeroIndices xs) =
        .ok (.q ((xs.length : ℚ) / (((nonzeroIndices xs).length : ℚ) - 1)))) := by
  refine ⟨?_, ?_, ?_⟩
  · intro h
    rw [adiOf_pool, if_neg (by omega)]
  · intro h
    cases hidx : nonzeroIndices xs with
    | nil => rw [hidx] at h; simp at h
    | cons i rest =>
        rw [hidx] at h
        rw [adiOf_trim_cons]
        unfold npDivInt
        rw [if_neg (by simp only [List.length_cons] at h ⊢; omega)]
        simp only [List.headD_cons]
        congr 1
        push_cast
        ring_nf
  · intro h
    rw [adiOf_ignore, if_neg (by omega)]

/-- Witness for C3 at scenario A's series: ADI is `10/4` under pool,
`(9-0)/3` under trim, and `10/3` under ignore. -/
theorem adi_formula_by_handling_witness :
    adiOf "pool" scenarioASeries.length (nonzeroIndices scenarioASeries) =
      .ok (.q ((scenarioASeries.length : ℚ) /
        ((nonzeroIndices scenarioASeries).length : ℚ))) ∧
    adiOf "trim" scenarioASeries.length (nonzeroIndices scenarioASeries) =
      .ok (.q ((((nonzeroIndices scenarioASeries).getLastD 0 : ℚ) -
          ((nonzeroIndices scenarioASeries).headD 0 : ℚ)) /
        (((nonzeroIndices scenarioASeries).length : ℚ) - 1))) ∧
    adiOf "ignore" scenarioASeries.length (nonzeroIndices scenarioASeries) =
      .ok (.q ((scenarioASeries.length : ℚ) /
        (((nonzeroIndices scenarioASeries).length : ℚ) - 1))) :=
  ⟨(adi_formula_by_handling scenarioASeries).1 (by decide),
   (adi_formula_by_handling scenarioASeries).2.1 (by decide),
   (adi_formula_by_handling scenarioASeries).2.2 (by decide)⟩

/-- Claim C4, counterexample: for the series `[1, -1]` (two non-zero
observations) the non-zero values have mean 0, and the code computes
`CV2 = (σ/0)^2 = inf` — not a non-negative real number equal to `(σ/μ)²`
(which is undefined at `μ = 0`); the transform still returns a record with
this infinite CV2. -/
theorem cv2_zero_mean_counterexample :
    cv2Of (nonzeroValues [1, -1]) = PyNum.inf ∧
    (PyNum.inf).isFiniteVal = false ∧
    transform defaultPoolConfig [1, -1] =
      .ok [("adi", .num (.q 1)), ("cv2", .num PyNum.inf),
           ("class", .str "erratic")] := by
  exact ⟨by with_unfolding_all rfl, rfl, by with_unfolding_all rfl⟩

/-- Claim C4 as amended: for every series with at least one non-zero
observation whose non-zero values have a non-zero mean, the computed CV2 is
the exact rational `popVar/popMean²` — that is `(σ/μ)²` with `σ` the
population (not sample) standard deviation, since `σ² = popVar` — and this
value is non-negative.  (When the mean of the non-zero values is zero the
code instead produces the float `inf`.) -/
theorem cv2_formula_nonneg (xs : List ℚ) (hne : nonzeroValues xs ≠ [])
    (hmu : popMean (nonzeroValues xs) ≠ 0) :
    cv2Of (nonzeroValues xs) =
      .q (popVar (nonzeroValues xs) / popMean (nonzeroValues xs) ^ 2) ∧
    0 ≤ popVar (nonzeroValues xs) / popMean (nonzeroValues xs) ^ 2 := by
  constructor
  · unfold cv2Of
    rw [if_neg (by simpa using hne), if_neg hmu]
  · apply div_nonneg
    · unfold popVar
      apply div_nonneg
      · apply List.sum_nonneg
        intro x hx
        obtain ⟨y, hy, rfl⟩ := List.mem_map.mp hx
        positivity
      · positivity
    · positivity

/-- Witness for C4 (amended) at the series `[5, 3]`: the non-zero values have
mean 4, so CV2 is the exact rational `popVar/popMean² = 1/16 ≥ 0`. -/
theorem cv2_formula_nonneg_witness :
    cv2Of (nonzeroValues [5, 3]) =
      .q (popVar (nonzeroValues [5, 3]) / popMean (nonzeroValues [5, 3]) ^ 2) ∧
    0 ≤ popVar (nonzeroValues [5, 3]) / popMean (nonzeroValues [5, 3]) ^ 2 :=
  cv2_formula_nonneg [5, 3] (by decide)
    (by
      have h4 : popMean (nonzeroValues [5, 3]) = 4 := by with_unfolding_all rfl
      rw [h4]
      norm_num)

theorem getD_zero_of_all_zero (xs : List ℚ) (h : ∀ x ∈ xs, x = 0) (i : ℕ) :
    xs.getD i 0 = 0 := by
  rw [List.getD_eq_getElem?_getD]
  cases hx : xs[i]? with
  | none => rfl
  | some a =>
      simp only [Option.getD_some]
      exact h a (List.getElem?_mem hx)

theorem nonzeroIndices_eq_nil (xs : List ℚ) (h : ∀ x ∈ xs, x = 0) :
    nonzeroIndices xs = [] := by
  unfold nonzeroIndices
  apply List.filter_eq_nil_iff.mpr
  intro i _
  have h0 := getD_zero_of_all_zero xs h i
  rw [List.getD_eq_getElem?_getD] at h0
  simp [h0]

theorem cv2Of_singleton (v : ℚ) (hv : v ≠ 0) : cv2Of [v] = .q 0 := by
  have hm : popMean [v] = v := by unfold popMean; simp
  have hvar : popVar [v] = 0 := by unfold popVar; rw [hm]; simp
  unfold cv2Of
  rw [if_neg (by simp), hm, if_neg hv, hvar]
  simp

theorem classTypeOf_lowNan (a t u : ℚ) (ha : a ≤ t) :
    classTypeOf (.q a) .nan t u = some "erratic" := by
  simp [classTypeOf, ple, ha]

theorem classTypeOf_nanLow (c t u : ℚ) (hc : c ≤ u) :
    classTypeOf .nan (.q c) t u = some "intermittent" := by
  simp [classTypeOf, ple, hc]

/-- Claim C5, counterexample: on the all-zero series `[0,0,0]` under
`"ignore"` handling the denominator is `0 - 1 = -1`, so nothing raises at
all: the transform returns a record with `ADI = -3`, `CV2 = nan` and class
`"erratic"` — contradicting the claim that an all-zero series raises an
explicit error under every trim-handling setting. -/
theorem all_zero_ignore_returns_counterexample :
    transform defaultIgnoreConfig [0, 0, 0] =
      .ok [("adi", .num (.q (-3))), ("cv2", .num .nan),
           ("class", .str "erratic")] := by
  with_unfolding_all rfl

/-- Claim C5 as amended: there is no dedicated degenerate-series error.  On
an all-zero series, `"pool"` raises `ZeroDivisionError` (Python int `/ 0`),
`"trim"` raises `IndexError` (indexing the empty non-zero index array), and
`"ignore"` raises nothing: it returns `ADI = -T`, `CV2 = nan`, class
`"erratic"`.  With exactly one non-zero observation, `"ignore"` raises
`ZeroDivisionError`, while `"trim"` returns a record with `ADI = nan`
(NumPy `0/0`), `CV2 = 0` and class `"intermittent"` instead of raising. -/
theorem degenerate_series_behavior :
    (∀ xs : List ℚ, xs ≠ [] → (∀ x ∈ xs, x = 0) →
      transform defaultPoolConfig xs = .error .zeroDivisionError ∧
      transform defaultTrimConfig xs = .error .indexError ∧
      transform defaultIgnoreConfig xs =
        .ok [("adi", .num (.q (-(xs.length : ℚ)))), ("cv2", .num .nan),
             ("class", .str "erratic")]) ∧
    (∀ (xs : List ℚ) (i : ℕ), nonzeroIndices xs = [i] →
      transform defaultIgnoreConfig xs = .error .zeroDivisionError ∧
      transform defaultTrimConfig xs =
        .ok [("adi", .num .nan), ("cv2", .num (.q 0)),
             ("class", .str "intermittent")]) := by
  constructor
  · intro xs _ hz
    have hidx : nonzeroIndices xs = [] := nonzeroIndices_eq_nil xs hz
    have hvals : nonzeroValues xs = [] := by unfold nonzeroValues; rw [hidx]; rfl
    have hcv : cv2Of (nonzeroValues xs) = .nan := by rw [hvals]; rfl
    refine ⟨?_, ?_, ?_⟩
    · apply transform_error_of_adi
      show adiOf "pool" xs.length (nonzeroIndices xs) = _
      rw [hidx, adiOf_pool]
      rfl
    · apply transform_error_of_adi
      show adiOf "trim" xs.length (nonzeroIndices xs) = _
      rw [hidx]
      exact adiOf_trim_nil xs.length
    · have hadi : adiOf "ignore" xs.length (nonzeroIndices xs) =
          .ok (.q (-(xs.length : ℚ))) := by
        rw [hidx, adiOf_ignore]
        norm_num [div_neg]
      have hct : classTypeOf (.q (-(xs.length : ℚ))) (cv2Of (nonzeroValues xs))
          defaultIgnoreConfig.adi_threshold defaultIgnoreConfig.cv_threshold =
          some "erratic" := by
        rw [hcv]
        apply classTypeOf_lowNan
        have h0 : (0 : ℚ) ≤ (xs.length : ℚ) := Nat.cast_nonneg _
        show -(xs.length : ℚ) ≤ 33/25
        linarith
      have h2 := transform_ok_of_adi defaultIgnoreConfig xs
        (.q (-(xs.length : ℚ))) "erratic" hadi rfl hct
      rw [hcv] at h2
      exact h2
  · intro xs i hidx
    refine ⟨?_, ?_⟩
    · apply transform_error_of_adi
      show adiOf "ignore" xs.length (nonzeroIndices xs) = _
      rw [hidx, adiOf_ignore]
      norm_num
    · have hadi : adiOf "trim" xs.length (nonzeroIndices xs) = .ok .nan := by
        rw [hidx, adiOf_trim_cons]
        show Except.ok (npDivInt ((i : ℤ) - (i : ℤ)) ((1 : ℤ) - 1)) = _
        norm_num [npDivInt]
      have hvne : xs.getD i 0 ≠ 0 := by
        have hm : i ∈ nonzeroIndices xs := by rw [hidx]; simp
        unfold nonzeroIndices at hm
        simpa using (List.mem_filter.mp hm).2
      have hvals : nonzeroValues xs = [xs.getD i 0] := by
        unfold nonzeroValues
        rw [hidx]
        rfl
      have hcv : cv2Of (nonzeroValues xs) = .q 0 := by
        rw [hvals]
        exact cv2Of_singleton _ hvne
      have hct : classTypeOf .nan (cv2Of (nonzeroValues xs))
          defaultTrimConfig.adi_threshold defaultTrimConfig.cv_threshold =
          some "intermittent" := by
        rw [hcv]
        exact classTypeOf_nanLow 0 _ _ (by show (0 : ℚ) ≤ 49/100; norm_num)
      have h2 := transform_ok_of_adi defaultTrimConfig xs .nan "intermittent"
        hadi rfl hct
      rw [hcv] at h2
      exact h2

/-- Witness for C5 (amended): the all-zero series `[0, 0]` under the three
handlings, and the single-non-zero series `[0, 7]` under ignore and trim. -/
theorem degenerate_series_behavior_witness :
    (transform defaultPoolConfig [0, 0] = .error .zeroDivisionError ∧
     transform defaultTrimConfig [0, 0] = .error .indexError ∧
     transform defaultIgnoreConfig [0, 0] =
       .ok [("adi", .num (.q (-(([0, 0] : List ℚ).length : ℚ)))),
            ("cv2", .num .nan), ("class", .str "erratic")]) ∧
    (transform defaultIgnoreConfig [0, 7] = .error .zeroDivisionError ∧
     transform defaultTrimConfig [0, 7] =
       .ok [("adi", .num .nan), ("cv2", .num (.q 0)),
            ("class", .str "intermittent")]) :=
  ⟨degenerate_series_behavior.1 [0, 0] (by decide) (by decide),
   degenerate_series_behavior.2 [0, 7] 1 (by decide)⟩

/-- Claim C6, counterexample: the constructor does not validate
`adi_trim_handling` at all, so construction with the invalid value
`"average"` succeeds instead of raising a configuration error. -/
theorem invalid_trim_handling_constructs_counterexample :
    mkConfig none defaultAdiThreshold defaultCvThreshold "average" =
      .ok ⟨none, defaultAdiThreshold, defaultCvThreshold, "average",
        validFeatures⟩ := rfl

/-- Claim C6 as amended: construction succeeds for every `adi_trim_handling`
string; a value outside `{"pool", "trim", "ignore"}` only fails later, at
transform time, when line 209 reads the never-assigned `adi_numerator` and
raises `UnboundLocalError`. -/
theorem invalid_trim_handling_fails_at_transform (a c : ℚ) (hd : String)
    (h1 : hd ≠ "trim") (h2 : hd ≠ "pool") (h3 : hd ≠ "ignore") :
    mkConfig none a c hd = .ok ⟨none, a, c, hd, validFeatures⟩ ∧
    ∀ xs : List ℚ, transform ⟨none, a, c, hd, validFeatures⟩ xs =
      .error .unboundLocalError := by
  refine ⟨rfl, fun xs => ?_⟩
  apply transform_error_of_adi
  show adiOf hd xs.length (nonzeroIndices xs) = _
  unfold adiOf
  rw [if_neg h1, if_neg h2, if_neg h3]

/-- Witness for C6 (amended) at `adi_trim_handling = "average"` and the
series `[1, 2]`. -/
theorem invalid_trim_handling_fails_at_transform_witness :
    mkConfig none defaultAdiThreshold defaultCvThreshold "average" =
      .ok ⟨none, defaultAdiThreshold, defaultCvThreshold, "average",
        validFeatures⟩ ∧
    transform ⟨none, defaultAdiThreshold, defaultCvThreshold, "average",
      validFeatures⟩ [1, 2] = .error .unboundLocalError :=
  ⟨(invalid_trim_handling_fails_at_transform defaultAdiThreshold
      defaultCvThreshold "average" (by decide) (by decide) (by decide)).1,
   (invalid_trim_handling_fails_at_transform defaultAdiThreshold
      defaultCvThreshold "average" (by decide) (by decide) (by decide)).2 [1, 2]⟩

/-- Claim C8: for every non-empty features list drawn from
`{"adi", "cv2", "class"}`, a successful transform returns a record whose
fields are exactly that list, in the given order; with `features = None`
the record has the three default fields in the default order. -/
theorem features_subsetting_order :
    (∀ (fs : List String) (a c : ℚ) (hd : String) (cfg : Config),
      fs ≠ [] → (∀ f ∈ fs, f ∈ validFeatures) →
      mkConfig (some fs) a c hd = .ok cfg →
      ∀ (xs : List ℚ) (out : List (String × FeatureValue)),
        transform cfg xs = .ok out → out.map Prod.fst = fs) ∧
    (∀ (a c : ℚ) (hd : String) (cfg : Config),
      mkConfig none a c hd = .ok cfg →
      ∀ (xs : List ℚ) (out : List (String × FeatureValue)),
        transform cfg xs = .ok out →
        out.map Prod.fst = ["adi", "cv2", "class"]) := by
  constructor
  · intro fs a c hd cfg _ _ hmk xs out htr
    obtain ⟨d, hre⟩ := transform_ok_elim cfg xs out htr
    have hcfg := mkConfig_some_ok fs a c hd cfg hmk
    rw [hcfg] at hre
    exact reindex_ok_fst fs d out hre
  · intro a c hd cfg hmk xs out htr
    obtain ⟨d, hre⟩ := transform_ok_elim cfg xs out htr
    have hcfg := mkConfig_none_ok a c hd cfg hmk
    rw [hcfg] at hre
    exact reindex_ok_fst validFeatures d out hre

/-- Witness for C8 at `features = ["cv2", "adi"]` and the series `[1]`: the
output record has exactly the fields `cv2`, `adi`, in that order. -/
theorem features_subsetting_order_witness :
    ([("cv2", FeatureValue.num (.q 0)), ("adi", FeatureValue.num (.q 1))].map
      Prod.fst) = ["cv2", "adi"] :=
  features_subsetting_order.1 ["cv2", "adi"] defaultAdiThreshold
    defaultCvThreshold "pool"
    ⟨some ["cv2", "adi"], defaultAdiThreshold, defaultCvThreshold, "pool",
      ["cv2", "adi"]⟩
    (by decide) (by decide) rfl [1]
    [("cv2", FeatureValue.num (.q 0)), ("adi", FeatureValue.num (.q 1))]
    (by with_unfolding_all rfl)

/-- Claim C9: the transform is pure and deterministic.  In the state-passing
model a call returns the instance state unchanged, so a second call on the
same series gives the same result, and two instances constructed with the
same parameters give identical results on every series. -/
theorem transform_pure_deterministic (c : Config) (xs : List ℚ)
    (f : Option (List String)) (a cv : ℚ) (hd : String) (cfg1 cfg2 : Config)
    (h1 : mkConfig f a cv hd = .ok cfg1) (h2 : mkConfig f a cv hd = .ok cfg2) :
    (transformCall c xs).1 = (transformCall (transformCall c xs).2 xs).1 ∧
    (transformCall c xs).2 = c ∧
    transformCall cfg1 xs = transformCall cfg2 xs := by
  refine ⟨rfl, rfl, ?_⟩
  have hc : cfg1 = cfg2 := by
    rw [h1] at h2
    exact Except.ok.inj h2
  rw [hc]

/-- Witness for C9 with the default configuration and the series `[1]`. -/
theorem transform_pure_deterministic_witness :
    (transformCall defaultPoolConfig [1]).1 =
      (transformCall (transformCall defaultPoolConfig [1]).2 [1]).1 ∧
    (transformCall defaultPoolConfig [1]).2 = defaultPoolConfig ∧
    transformCall defaultPoolConfig [1] = transformCall defaultPoolConfig [1] :=
  transform_pure_deterministic defaultPoolConfig [1] none defaultAdiThreshold
    defaultCvThreshold "pool" defaultPoolConfig defaultPoolConfig rfl rfl

/-- Claim C10: constructing with an empty features list succeeds (the
validation holds vacuously), and a transform that completes returns a
record with zero fields rather than raising; e.g. on `[5, 0, 3]` under pool
handling the result is the empty record. -/
theorem empty_features_ok (a c : ℚ) (hd : String) :
    mkConfig (some []) a c hd = .ok ⟨some [], a, c, hd, []⟩ ∧
    (∀ (cfg : Config) (xs : List ℚ) (out : List (String × FeatureValue)),
      mkConfig (some []) a c hd = .ok cfg → transform cfg xs = .ok out →
      out = []) ∧
    transform ⟨some [], a, c, "pool", []⟩ [5, 0, 3] = .ok [] := by
  refine ⟨rfl, ?_, ?_⟩
  · intro cfg xs out hmk htr
    obtain ⟨d, hre⟩ := transform_ok_elim cfg xs out htr
    have hcfg := mkConfig_some_ok [] a c hd cfg hmk
    rw [hcfg] at hre
    have h0 := reindex_ok_fst [] d out hre
    simpa using h0
  · rfl

/-- Witness for C10 with the default thresholds. -/
theorem empty_features_ok_witness :
    mkConfig (some []) defaultAdiThreshold defaultCvThreshold "pool" =
      .ok ⟨some [], defaultAdiThreshold, defaultCvThreshold, "pool", []⟩ ∧
    ([] : List (String × FeatureValue)) = [] ∧
    transform ⟨some [], defaultAdiThreshold, defaultCvThreshold, "pool", []⟩
      [5, 0, 3] = .ok [] :=
  ⟨(empty_features_ok defaultAdiThreshold defaultCvThreshold "pool").1,
   (empty_features_ok defaultAdiThreshold defaultCvThreshold "pool").2.1
     ⟨some [], defaultAdiThreshold, defaultCvThreshold, "pool", []⟩ [5, 0, 3]
     [] rfl (by with_unfolding_all rfl),
   (empty_features_ok defaultAdiThreshold defaultCvThreshold "pool").2.2⟩

end AdiCv
